import Mathlib

/-!
Verification development for the Metorial python-lambda build image
(`boot/boot.py`, `boot/metorial.py`, `boot/oauth.py`, `boot/callbacks.py`,
`boot/config.py`, `boot/promise.py`).

The Python code is shallowly embedded: JSON/Python values become the
inductive `JVal`, Python exceptions become `PyErr`, fallible code returns
`Except PyErr _`, and module-level mutable state becomes explicit state
records that the embedded functions transform.
-/

namespace MetorialBoot

/-- JSON-like values, also standing in for the plain Python values
(dict / list / str / int / bool / None) that flow through the handlers. -/
inductive JVal where
  | null
  | bool (b : Bool)
  | num (n : Int)
  | str (s : String)
  | arr (xs : List JVal)
  | obj (fields : List (String × JVal))
deriving Repr

/-- Python truthiness of a value (`if v:`): None, False, 0, "", [] and
the empty dict are falsy, everything else is truthy. -/
def JVal.truthy : JVal → Bool
  | .null => false
  | .bool b => b
  | .num n => n != 0
  | .str s => !s.isEmpty
  | .arr xs => !xs.isEmpty
  | .obj fs => !fs.isEmpty

/-- Python exceptions that the embedded code can raise. -/
inductive PyErr where
  | valueError (emsg : String)
  | attributeError (emsg : String)
  | typeError (emsg : String)
  | timeoutError
  | jsonDecodeError (emsg : String)
deriving Repr, DecidableEq

/-- `str(e)` for an exception, as used when building error payloads. -/
def PyErr.msg : PyErr → String
  | .valueError m => m
  | .attributeError m => m
  | .typeError m => m
  | .timeoutError => "TimeoutError"
  | .jsonDecodeError m => m

/-- A model of `traceback.format_exc()` for the exception `e`: the concrete
text is runtime-dependent, so the model keeps just the message. -/
def traceback (e : PyErr) : String := "Traceback: " ++ e.msg

/-- `v.get(k, dflt)` on a Python value: succeeds on dicts, raises
AttributeError on anything that has no `.get` method. -/
def pyGet (v : JVal) (k : String) (dflt : JVal) : Except PyErr JVal :=
  match v with
  | .obj fs => .ok (((fs.find? (fun p => p.1 == k)).map (fun p => p.2)).getD dflt)
  | _ => .error (.attributeError ("object has no attribute get: " ++ k))

/-- Python `str(v)` as used inside f-strings of error messages (only the
cases the claims exercise need to be precise). -/
def pyStr : JVal → String
  | .null => "None"
  | .bool true => "True"
  | .bool false => "False"
  | .num n => toString n
  | .str s => s
  | .arr _ => "<list>"
  | .obj _ => "<dict>"

/-- `str(message.get('method'))` — absent field prints as None. -/
def pyStrOpt : Option JVal → String
  | none => "None"
  | some v => pyStr v

/-! ## Request dispatcher (`boot/boot.py`, `handle_mcp_request`)

A decoded protocol message is a dict; the dispatcher reads only its
`id`, `method` and `params` fields, so a message is embedded as those three
optional fields (`id?.isSome` models `'id' in message`; an explicit JSON
null id is `some JVal.null` and still counts as present, as in the code). -/

structure Msg where
  id? : Option JVal
  method : Option JVal
  params : Option JVal

/-- The user handler table `_handlers` (`builtins.__metorial_handlers__`):
presence of a key models `'list_tools' in handlers`; each handler is a
function that either returns a value or raises. -/
structure Handlers where
  list_tools : Option (Unit → Except PyErr JVal)
  call_tool : Option (JVal → JVal → Except PyErr JVal)
  list_resources : Option (Unit → Except PyErr JVal)
  read_resource : Option (JVal → Except PyErr JVal)
  list_prompts : Option (Unit → Except PyErr JVal)
  get_prompt : Option (JVal → JVal → Except PyErr JVal)

/-- What `handle_mcp_request` reads off the loaded server object for the
`initialize` branch: its name/version and the dumped capability descriptor
(`server.get_capabilities(...).model_dump(exclude_none=True)`), which is
produced by the out-of-scope mcp library and treated as opaque data. -/
structure ServerInfo where
  name : String
  version : String
  capabilities : JVal

/-- The per-invocation environment of the dispatcher after
`load_user_server` succeeded: the server object and the handler table. -/
structure Env where
  server : ServerInfo
  handlers : Handlers

/-- One entry of the returned `responses` list: every branch of the source
appends a dict with `"id": message['id']` plus either a `result` or an
`error {code, message, data?}` (the per-message except clause uses
`message.get('id')`, hence the `Option` id on errors). -/
inductive Reply where
  | result (rid : JVal) (r : JVal)
  | err (rid : Option JVal) (code : Int) (emsg : String) (data : Option String)
deriving Repr

/-- The correlation id carried by a reply entry. -/
def Reply.idOf : Reply → Option JVal
  | .result rid _ => some rid
  | .err rid _ _ _ => rid

/-- Ghost observation: one user-handler invocation made while processing a
message (used to state which messages get routed to handlers). -/
inductive HTrace where
  | listTools
  | callTool (name arg : JVal)
  | listResources
  | readResource (uri : JVal)
  | listPrompts
  | getPrompt (name arg : JVal)
deriving Repr

/-- Outcome of one dispatch branch before the id is attached: every
non-raising branch of the source appends `{"jsonrpc","id", ...}` where
`...` is either `"result": r` or an inline rpc error (`-32601`). -/
inductive ROut where
  | success (r : JVal)
  | rpcError (code : Int) (emsg : String)

/-- The method dispatch of `handle_mcp_request` (boot.py lines 163-278) for
one id-bearing message: the `if method == ...` chain, returning the branch
outcome (or the exception it raises) together with the handler-invocation
trace. -/
def dispatch (env : Env) (method : Option JVal) (params : JVal) :
    Except PyErr ROut × List HTrace :=
  match method with
  | some (JVal.str "initialize") =>
    (match pyGet params "protocolVersion" (.str "2024-11-05") with
     | .error e => (.error e, [])
     | .ok pv =>
       (.ok (.success (.obj
         [("protocolVersion", pv),
          ("capabilities", env.server.capabilities),
          ("serverInfo", .obj
            [("name", .str env.server.name),
             ("version", .str env.server.version)])])), []))
  | some (JVal.str "tools/list") =>
    (match env.handlers.list_tools with
     | some h =>
       (match h () with
        | .ok tools =>
          (.ok (.success (.obj [("tools", if tools.truthy then tools else .arr [])])),
           [.listTools])
        | .error e => (.error e, [.listTools]))
     | none => (.ok (.success (.obj [("tools", .arr [])])), []))
  | some (JVal.str "tools/call") =>
    (match env.handlers.call_tool with
     | some h =>
       (match pyGet params "name" .null with
        | .error e => (.error e, [])
        | .ok name =>
          match pyGet params "arguments" (.obj []) with
          | .error e => (.error e, [])
          | .ok arguments =>
            match h name arguments with
            | .ok r => (.ok (.success r), [.callTool name arguments])
            | .error e => (.error e, [.callTool name arguments]))
     | none => (.error (.valueError "call_tool handler not registered"), []))
  | some (JVal.str "resources/list") =>
    (match env.handlers.list_resources with
     | some h =>
       (match h () with
        | .ok resources =>
          (.ok (.success (.obj
            [("resources", if resources.truthy then resources else .arr [])])),
           [.listResources])
        | .error e => (.error e, [.listResources]))
     | none => (.ok (.success (.obj [("resources", .arr [])])), []))
  | some (JVal.str "resources/read") =>
    (match env.handlers.read_resource with
     | some h =>
       (match pyGet params "uri" .null with
        | .error e => (.error e, [])
        | .ok uri =>
          match h uri with
          | .ok r => (.ok (.success r), [.readResource uri])
          | .error e => (.error e, [.readResource uri]))
     | none => (.error (.valueError "read_resource handler not registered"), []))
  | some (JVal.str "prompts/list") =>
    (match env.handlers.list_prompts with
     | some h =>
       (match h () with
        | .ok prompts =>
          (.ok (.success (.obj
            [("prompts", if prompts.truthy then prompts else .arr [])])),
           [.listPrompts])
        | .error e => (.error e, [.listPrompts]))
     | none => (.ok (.success (.obj [("prompts", .arr [])])), []))
  | some (JVal.str "prompts/get") =>
    (match env.handlers.get_prompt with
     | some h =>
       (match pyGet params "name" .null with
        | .error e => (.error e, [])
        | .ok name =>
          match pyGet params "arguments" (.obj []) with
          | .error e => (.error e, [])
          | .ok arguments =>
            match h name arguments with
            | .ok r => (.ok (.success r), [.getPrompt name arguments])
            | .error e => (.error e, [.getPrompt name arguments]))
     | none => (.error (.valueError "get_prompt handler not registered"), []))
  | some (JVal.str "ping") => (.ok (.success (.obj [])), [])
  | m => (.ok (.rpcError (-32601) ("Method not found: " ++ pyStrOpt m)), [])

/-- The body of the per-message loop of `handle_mcp_request`: extract
method/params, skip the message (`continue`) when it carries no `id` —
before any routing — otherwise dispatch and turn the outcome into exactly
one appended reply entry; a raised exception becomes the `-32603` error
entry of the per-message except clause. -/
def processOne (env : Env) (m : Msg) : List Reply × List HTrace :=
  match m.id? with
  | none => ([], [])
  | some idv =>
    match dispatch env m.method (m.params.getD (JVal.obj [])) with
    | (Except.ok (ROut.success r), tr) => ([Reply.result idv r], tr)
    | (Except.ok (ROut.rpcError c emsg), tr) => ([Reply.err (some idv) c emsg none], tr)
    | (Except.error e, tr) => ([Reply.err (some idv) (-32603) e.msg (some (traceback e))], tr)

/-- A raw inbound message: either an already-decoded dict or a JSON string
(`json.loads(message_raw) if isinstance(message_raw, str) else message_raw`). -/
inductive RawMsg where
  | objMsg (m : Msg)
  | strMsg (s : String)

/-- Decoding one raw message with the JSON decoder `decode`; `none` covers
every failure of `json.loads` on the string (which the source performs
OUTSIDE the per-message try, so it propagates to the top-level handler). -/
def decode1 (decode : String → Option Msg) : RawMsg → Option Msg
  | .objMsg m => some m
  | .strMsg s => decode s

/-- The message loop of `handle_mcp_request`: decode each raw message (a
decode failure raises out of the loop), run `processOne`, and accumulate
the appended replies and the handler-invocation trace in order. -/
def runBatch (env : Env) (decode : String → Option Msg) :
    List RawMsg → Except PyErr (List Reply) × List HTrace
  | [] => (.ok [], [])
  | raw :: rest =>
    match decode1 decode raw with
    | none => (.error (.jsonDecodeError "Expecting value"), [])
    | some m =>
      let (rs, ts) := processOne env m
      match runBatch env decode rest with
      | (.ok rs2, ts2) => (.ok (rs ++ rs2), ts ++ ts2)
      | (.error e, ts2) => (.error e, ts ++ ts2)

/-- The dispatcher's returned dict: `{"success": true, "responses": ...}`
or the top-level except clause's `{"success": false, "error": {...}}`. -/
inductive McpResult where
  | ok (responses : List Reply)
  | failure (code : String) (emsg : String)
deriving Repr

/-- `handle_mcp_request` over an environment in which `load_user_server`
already succeeded, paired with the ghost handler-invocation trace. -/
def handle_mcp_request_tr (env : Env) (decode : String → Option Msg)
    (msgs : List RawMsg) : McpResult × List HTrace :=
  match runBatch env decode msgs with
  | (.ok rs, ts) => (.ok rs, ts)
  | (.error e, ts) => (.failure "mcp_error" (e.msg ++ "\n" ++ traceback e), ts)

/-- `handle_mcp_request` (boot.py lines 141-306), responses only. -/
def handle_mcp_request (env : Env) (decode : String → Option Msg)
    (msgs : List RawMsg) : McpResult :=
  (handle_mcp_request_tr env decode msgs).1

/-- Decoding a whole batch: `some` iff every string message decodes. -/
def decodeBatch (decode : String → Option Msg) : List RawMsg → Option (List Msg)
  | [] => some []
  | raw :: rest =>
    match decode1 decode raw with
    | none => none
    | some m => (decodeBatch decode rest).map (fun ms => m :: ms)

/-! ### Concrete instances used by witnesses and counterexamples -/

/-- A server identity used in concrete batches. -/
def srvInfo : ServerInfo := ⟨"srv", "1.0.0", JVal.obj []⟩

/-- An empty handler table (user registered nothing). -/
def noHandlers : Handlers := ⟨none, none, none, none, none, none⟩

/-- Environment with no registered handlers. -/
def envNone : Env := ⟨srvInfo, noHandlers⟩

/-- Environment whose only handler is a `call_tool` that always succeeds. -/
def envCall : Env :=
  ⟨srvInfo,
   { noHandlers with call_tool := some (fun _ _ => .ok (.str "called")) }⟩

/-- A JSON decoder that fails on every string. -/
def decodeNone : String → Option Msg := fun _ => none

/-- A `ping` request with id 1. -/
def pingMsg1 : Msg := ⟨some (.num 1), some (.str "ping"), none⟩

/-- A `ping` request with id 2. -/
def pingMsg2 : Msg := ⟨some (.num 2), some (.str "ping"), none⟩

/-- A `ping` notification (no id). -/
def pingNotif : Msg := ⟨none, some (.str "ping"), none⟩

/-- A JSON decoder that recognises exactly the string "ping2". -/
def decodePing : String → Option Msg :=
  fun s => if s == "ping2" then some pingMsg2 else none

/-- Batch: request, notification, textual request. -/
def rawsMixed : List RawMsg :=
  [.objMsg pingMsg1, .objMsg pingNotif, .strMsg "ping2"]

/-- The decoded form of `rawsMixed` under `decodePing`. -/
def msgsMixed : List Msg := [pingMsg1, pingNotif, pingMsg2]

/-- A `tools/call` request with id 1 (no `call_tool` handler registered in
`envNone`, so processing it raises `ValueError`). -/
def callMsg1 : Msg := ⟨some (.num 1), some (.str "tools/call"), none⟩

/-- Batch whose middle element is a string that fails to decode. -/
def rawsBadString : List RawMsg :=
  [.objMsg pingMsg1, .strMsg "not json", .objMsg pingMsg2]

/-- A `tools/call` request with id 7 naming tool "t". -/
def callMsgId : Msg :=
  ⟨some (.num 7), some (.str "tools/call"), some (.obj [("name", .str "t")])⟩

/-- The same `tools/call` message without an id (a notification). -/
def callMsgNoId : Msg :=
  ⟨none, some (.str "tools/call"), some (.obj [("name", .str "t")])⟩

/-! ## Provider Registry (`boot/metorial.py`, `ServerWrapper`) -/

/-- Python dict with insertion order (the `_tools`/`_resources`/`_prompts`
dicts): re-inserting an existing key replaces its value in place, a new
key is appended at the end. -/
def pyDictInsert {α : Type} (d : List (String × α)) (k : String) (v : α) :
    List (String × α) :=
  if d.any (fun p => p.1 == k) then
    d.map (fun p => if p.1 == k then (k, v) else p)
  else d ++ [(k, v)]

/-- A `_tools` entry: `{"options": ..., "handler": ...}`. -/
structure ToolEntry where
  options : JVal
  handler : JVal → Except PyErr JVal

/-- A `_resources` entry: `{"template": ..., "options": ..., "handler": ...}`. -/
structure ResourceEntry where
  template : JVal
  options : JVal
  handler : JVal → Except PyErr JVal

/-- A `_prompts` entry: `{"options": ..., "handler": ...}`. -/
structure PromptEntry where
  options : JVal
  handler : JVal → Except PyErr JVal

/-- The `ServerWrapper` object: identity pair plus the three capability
tables in registration (dict-insertion) order. -/
structure ServerWrapperM where
  name : String
  version : String
  tools : List (String × ToolEntry)
  resources : List (String × ResourceEntry)
  prompts : List (String × PromptEntry)

/-- `register_tool` (direct-call form; the decorator form runs the same
`decorator(func)` body). -/
def register_tool (s : ServerWrapperM) (name : String) (options : JVal)
    (handler : JVal → Except PyErr JVal) : ServerWrapperM :=
  { s with tools := pyDictInsert s.tools name ⟨options, handler⟩ }

/-- `register_resource` (direct-call form). -/
def register_resource (s : ServerWrapperM) (name : String) (template : JVal)
    (options : JVal) (handler : JVal → Except PyErr JVal) : ServerWrapperM :=
  { s with resources := pyDictInsert s.resources name ⟨template, options, handler⟩ }

/-- `get_capabilities` (metorial.py lines 236-258): starts from
`{"experimental": {}}` and adds a `tools`/`resources`/`prompts` entry when
the corresponding table is non-empty. -/
def get_capabilities (s : ServerWrapperM) : JVal :=
  JVal.obj ([("experimental", JVal.obj [])]
    ++ (if s.tools.isEmpty then []
        else [("tools", JVal.obj [("listChanged", JVal.bool false)])])
    ++ (if s.resources.isEmpty then []
        else [("resources", JVal.obj
          [("listChanged", JVal.bool false), ("subscribe", JVal.bool false)])])
    ++ (if s.prompts.isEmpty then []
        else [("prompts", JVal.obj [("listChanged", JVal.bool false)])]))

/-- The key list of a capability descriptor. -/
def capKeys : JVal → List String
  | .obj fs => fs.map (fun p => p.1)
  | _ => []

/-- The `for name, info in self._resources.items()` loop of
`_read_resource` (metorial.py lines 204-213): call each handler with the
URI in registration order, return the first truthy result, raise
`ValueError(f"Unknown resource: {uri}")` if none is truthy; a raising
handler propagates. -/
def readResourceLoop (uri : JVal) :
    List (String × ResourceEntry) → Except PyErr JVal
  | [] => .error (.valueError ("Unknown resource: " ++ pyStr uri))
  | (_, info) :: rest =>
    match info.handler uri with
    | .error e => .error e
    | .ok result => if result.truthy then .ok result else readResourceLoop uri rest

/-- `ServerWrapper._read_resource`. -/
def read_resource (s : ServerWrapperM) (uri : JVal) : Except PyErr JVal :=
  readResourceLoop uri s.resources

/-! ## Programmable promise (`boot/promise.py`) -/

/-- The instance state of a `ProgrammablePromise`: its `_value` and
`_resolved` slots. -/
structure PromiseState (α : Type) where
  value : Option α
  resolved : Bool

/-- `__init__`: `_value = None`, `_resolved = False`. -/
def PromiseState.init {α : Type} : PromiseState α := ⟨none, false⟩

/-- `resolve` (promise.py lines 18-21): unconditionally stores the value
and marks the promise resolved — there is no already-resolved guard. -/
def PromiseState.resolve {α : Type} (_p : PromiseState α) (v : α) : PromiseState α :=
  ⟨some v, true⟩

/-- `reject` (promise.py lines 23-25): clears only the resolved flag. -/
def PromiseState.reject {α : Type} (p : PromiseState α) : PromiseState α :=
  ⟨p.value, false⟩

/-- The `promise` property (promise.py lines 13-16): returns the
ProgrammablePromise object itself, not its resolved value. -/
def PromiseState.promiseSelf {α : Type} (p : PromiseState α) : PromiseState α := p

/-- Python truthiness of a ProgrammablePromise instance: the class defines
neither a bool nor a len special method, so every instance is truthy. -/
def promiseTruthy {α : Type} (_p : PromiseState α) : Bool := true

/-- Attribute lookup `<ProgrammablePromise instance>.<attr>` for the hook
attributes the callbacks module reads (`handle_hook`, `install_hook`,
`poll_hook`): the class defines only `resolve`, `reject`, `promise`,
`value`, `resolved` (plus the `_value`/`_resolved` slots), none of which
is among the looked-up hook names, so the lookup raises AttributeError.
The payload type is the hook attribute's type, so that the (unreachable)
success continuations below can still transcribe the source. -/
def promiseHookAttr (β : Type) (attr : String) : Except PyErr β :=
  Except.error (.attributeError ("ProgrammablePromise object has no attribute " ++ attr))

/-! ## OAuth adapter (`boot/oauth.py`) -/

/-- A registered `OAuthHandler`: the two mandatory hooks plus the presence
of the optional ones (`get_auth_form`, `refresh_access_token`). -/
structure OAuthHandlerM where
  get_authorization_url : JVal → Except PyErr JVal
  handle_callback : JVal → Except PyErr JVal
  hasAuthForm : Bool
  hasRefresh : Bool

/-- Model of `asyncio.wait_for(x, timeout)`: Python's `ensure_future`
raises TypeError when `x` is not a Future, coroutine or awaitable.
`ProgrammablePromise` defines no `__await__`, so awaiting the object that
`config.get_mcp_auth()` returns (the promise object itself, via the
`promise` property) always takes the notAwaitable branch, for every slot
state and every timeout. -/
inductive Awaited (α : Type) where
  | awaitable (outcome : Except PyErr α)
  | notAwaitable

/-- `asyncio.wait_for`; a timeout expiry of an awaitable surfaces as its
`outcome` being `.error .timeoutError`. -/
def asyncioWaitFor {α : Type} (x : Awaited α) (_timeoutMs : Nat) : Except PyErr α :=
  match x with
  | .awaitable r => r
  | .notAwaitable =>
    .error (.typeError "An asyncio.Future, a coroutine or an awaitable is required")

/-- `get_oauth` (oauth.py lines 36-43): awaits
`config.get_mcp_auth()` — which is `current_oauth.promise`, the
non-awaitable ProgrammablePromise object itself — with a 0.5s bound,
mapping only `asyncio.TimeoutError` to None. -/
def get_oauth (_slot : PromiseState OAuthHandlerM) : Except PyErr (Option OAuthHandlerM) :=
  match asyncioWaitFor (Awaited.notAwaitable : Awaited OAuthHandlerM) 500 with
  | .ok r => .ok (some r)
  | .error .timeoutError => .ok none
  | .error e => .error e

/-- `handle_oauth_get` (oauth.py lines 45-50). -/
def handle_oauth_get (slot : PromiseState OAuthHandlerM) : Except PyErr JVal :=
  match get_oauth slot with
  | .error e => .error e
  | .ok none => .ok (.obj [("enabled", .bool false), ("hasForm", .bool false)])
  | .ok (some o) => .ok (.obj [("enabled", .bool true), ("hasForm", .bool o.hasAuthForm)])

/-- The result dict of `handle_oauth_action` / `handle_callbacks_action`:
`{"success": true, <key>: payload}` or the outer except clause's
`{"success": false, "error": {code, message}}`. -/
inductive ActionResult where
  | ok (payload : JVal)
  | failure (code : String) (emsg : String)
deriving Repr

/-- `handle_oauth_action` with `oauthAction == 'get'` (boot.py lines
308-340), after `load_user_server({})` succeeded. -/
def handle_oauth_action_get (slot : PromiseState OAuthHandlerM) : ActionResult :=
  match handle_oauth_get slot with
  | .ok v => .ok v
  | .error e => .failure "oauth_error" (e.msg ++ "\n" ++ traceback e)

/-! ## Callback adapter (`boot/callbacks.py`) -/

/-- The behaviour of one run of a poll hook on a given (callbackId, state)
input: the arguments of its `set_state` calls, in call order, and its
final outcome. The adapter's `state_ref` cell therefore ends at the last
`set_state` argument, or at the initial state if the setter was never
called. -/
structure PollRun where
  setCalls : List JVal
  outcome : Except PyErr JVal

/-- A registered `CallbackHandler`: mandatory `handle_hook`, optional
`install_hook` and `poll_hook`. -/
structure CallbackHandlerM where
  handle_hook : JVal → Except PyErr JVal
  install_hook : Option (JVal → Except PyErr JVal)
  poll_hook : Option (JVal → JVal → PollRun)

/-- `get_callbacks` (callbacks.py lines 31-33) returns
`config.get_callback_handler()`, which is `current_hook.promise` — the
ProgrammablePromise container itself (the `promise` property returns
`self`), NOT the registered CallbackHandler value. -/
def get_callbacks (slot : PromiseState CallbackHandlerM) :
    PromiseState CallbackHandlerM :=
  slot.promiseSelf

/-- `handle_callbacks_get` (callbacks.py lines 35-47): the returned
container is always truthy, so the `{"enabled": False}` branch is dead and
the `callbacks.install_hook` access raises AttributeError. -/
def handle_callbacks_get (slot : PromiseState CallbackHandlerM) : Except PyErr JVal :=
  let callbacks := get_callbacks slot
  if promiseTruthy callbacks = false then
    .ok (.obj [("enabled", .bool false)])
  else
    match promiseHookAttr (Option (JVal → Except PyErr JVal)) "install_hook" with
    | .error e => .error e
    | .ok install? =>
      if install?.isSome then
        .ok (.obj [("enabled", .bool true), ("type", .str "webhook")])
      else
        match promiseHookAttr (Option (JVal → JVal → PollRun)) "poll_hook" with
        | .error e => .error e
        | .ok poll? =>
          if poll?.isSome then
            .ok (.obj [("enabled", .bool true), ("type", .str "polling")])
          else
            .ok (.obj [("enabled", .bool true), ("type", .str "manual")])

/-- One iteration of the `for event in events` loop of
`handle_callbacks_handle` (callbacks.py lines 59-76): the
`callbacks.handle_hook` access happens inside the per-event try, so its
AttributeError is caught and becomes a per-event failure record carrying
`str(e)`; the except clause's own `event.get("eventId")` can still raise
for a non-dict event, which aborts the whole operation. -/
def perEventRecord (callbackId : JVal) (ev : JVal) : Except PyErr JVal :=
  match promiseHookAttr (JVal → Except PyErr JVal) "handle_hook" with
  | .error e =>
    (pyGet ev "eventId" .null).map (fun eid =>
      .obj [("success", .bool false), ("eventId", eid), ("error", .str e.msg)])
  | .ok hook =>
    match (do
        let eid ← pyGet ev "eventId" .null
        let payload ← pyGet ev "payload" .null
        let r ← hook (.obj
          [("callbackId", callbackId), ("eventId", eid), ("payload", payload)])
        pure (eid, r) : Except PyErr (JVal × JVal)) with
    | .ok (eid, r) =>
      .ok (.obj [("success", .bool true), ("eventId", eid), ("result", r)])
    | .error e =>
      (pyGet ev "eventId" .null).map (fun eid =>
        .obj [("success", .bool false), ("eventId", eid), ("error", .str e.msg)])

/-- The `for event in events` loop of `handle_callbacks_handle`, collecting
the per-event records in order (an exception escaping an iteration — only
possible from the except clause itself — aborts the loop). -/
def handleEventsLoop (callbackId : JVal) : List JVal → Except PyErr (List JVal)
  | [] => .ok []
  | ev :: rest =>
    match perEventRecord callbackId ev with
    | .error e => .error e
    | .ok r => (handleEventsLoop callbackId rest).map (fun rs => r :: rs)

/-- `handle_callbacks_handle` (callbacks.py lines 49-78). (Python would
iterate any iterable `events` value, e.g. a string character-wise; the
claims only exercise list-valued events, and a non-iterable raises.) -/
def handle_callbacks_handle (slot : PromiseState CallbackHandlerM) (input : JVal) :
    Except PyErr JVal :=
  let callbacks := get_callbacks slot
  if promiseTruthy callbacks = false then
    .error (.valueError "Callbacks not configured")
  else
    match pyGet input "callbackId" .null with
    | .error e => .error e
    | .ok callbackId =>
      match pyGet input "events" (.arr []) with
      | .error e => .error e
      | .ok (.arr evs) =>
        (handleEventsLoop callbackId evs).map
          (fun results => .obj [("results", .arr results)])
      | .ok _ => .error (.typeError "events is not iterable as a list")

/-- `handle_callbacks_install` (callbacks.py lines 80-87): the
`callbacks.install_hook` access in the guard raises AttributeError. -/
def handle_callbacks_install (slot : PromiseState CallbackHandlerM) (input : JVal) :
    Except PyErr JVal :=
  let callbacks := get_callbacks slot
  if promiseTruthy callbacks = false then
    .error (.valueError "Callback installation not supported")
  else
    match promiseHookAttr (Option (JVal → Except PyErr JVal)) "install_hook" with
    | .error e => .error e
    | .ok none => .error (.valueError "Callback installation not supported")
    | .ok (some hook) => (hook input).map (fun _ => .obj [])

/-- `handle_callbacks_poll` (callbacks.py lines 89-112): the
`callbacks.poll_hook` access in the guard raises AttributeError; the body
below it transcribes the state_ref threading of the source. -/
def handle_callbacks_poll (slot : PromiseState CallbackHandlerM) (input : JVal) :
    Except PyErr JVal :=
  let callbacks := get_callbacks slot
  if promiseTruthy callbacks = false then
    .error (.valueError "Callback polling not supported")
  else
    match promiseHookAttr (Option (JVal → JVal → PollRun)) "poll_hook" with
    | .error e => .error e
    | .ok none => .error (.valueError "Callback polling not supported")
    | .ok (some hook) =>
      match pyGet input "callbackId" .null with
      | .error e => .error e
      | .ok callbackId =>
        match pyGet input "state" .null with
        | .error e => .error e
        | .ok state =>
          let run := hook callbackId state
          match run.outcome with
          | .error e => .error e
          | .ok events =>
            let evList := match events with
              | .arr xs => xs
              | v => if v.truthy then [v] else []
            .ok (.obj [("events", .arr evList),
                       ("newState", run.setCalls.getLast?.getD state)])

/-- The try/except wrapper of `handle_callbacks_action` (boot.py lines
342-371) around one callback operation, after `load_user_server({})`
succeeded. -/
def callbacksAction (r : Except PyErr JVal) : ActionResult :=
  match r with
  | .ok v => .ok v
  | .error e => .failure "callback_error" (e.msg ++ "\n" ++ traceback e)

/-- `handle_callbacks_action` with `callbackAction == 'poll'`. -/
def handle_callbacks_action_poll (slot : PromiseState CallbackHandlerM)
    (input : JVal) : ActionResult :=
  callbacksAction (handle_callbacks_poll slot input)

/-! ## Invocation context (`boot/config.py`) and provider load (`boot/boot.py`) -/

/-- The four module-level promise slots of config.py. -/
structure ConfigState where
  current_oauth : PromiseState OAuthHandlerM
  current_server : PromiseState ServerWrapperM
  current_hook : PromiseState CallbackHandlerM
  current_args : PromiseState JVal

/-- `config.set_args` (config.py lines 35-37). -/
def set_args (args : JVal) (s : ConfigState) : ConfigState :=
  { s with current_args := s.current_args.resolve args }

/-- `config.reset_all` (config.py lines 43-49): installs four fresh
unresolved promises. It has no caller anywhere in the repository. -/
def reset_all (_s : ConfigState) : ConfigState :=
  ⟨PromiseState.init, PromiseState.init, PromiseState.init, PromiseState.init⟩

/-- Process state: the config slots plus boot.py's `_user_module_loaded`. -/
structure ProcState where
  cfg : ConfigState
  userModuleLoaded : Bool

/-- `load_user_server(args)` (boot.py lines 65-87): always calls
`config.set_args(args)`; executes the user module only on the first call
(the module's own registration calls are abstracted as `userModule`);
never calls `reset_all`. -/
def load_user_server (userModule : ConfigState → ConfigState) (args : JVal)
    (s : ProcState) : ProcState :=
  let s1 : ProcState := { s with cfg := set_args args s.cfg }
  if s.userModuleLoaded then s1
  else { cfg := userModule s1.cfg, userModuleLoaded := true }

/-- The four dispatch paths of boot.py and the arguments each passes to
`load_user_server`: `handle_discover`/`handle_mcp_request` pass the event
args, `handle_oauth_action`/`handle_callbacks_action` pass `{}`. -/
inductive DispatchPath where
  | discover (args : JVal)
  | mcpRequest (args : JVal)
  | oauthAction
  | callbacksAction

/-- The args value a dispatch path hands to `load_user_server`. -/
def pathArgs : DispatchPath → JVal
  | .discover a => a
  | .mcpRequest a => a
  | .oauthAction => .obj []
  | .callbacksAction => .obj []

/-- The configuration-state effect of one dispatch-path invocation: every
path's only config mutation goes through `load_user_server` (boot.py lines
92, 147, 310, 344); none calls `reset_all`. -/
def dispatchConfigEffect (userModule : ConfigState → ConfigState) :
    DispatchPath → ProcState → ProcState
  | .discover args => load_user_server userModule args
  | .mcpRequest args => load_user_server userModule args
  | .oauthAction => load_user_server userModule (.obj [])
  | .callbacksAction => load_user_server userModule (.obj [])

/-- Total form of `ev.get(k, d)` for dict values (used only to state
results about dict-shaped events). -/
def objGetD (ev : JVal) (k : String) (d : JVal) : JVal :=
  match ev with
  | .obj fs => (((fs.find? (fun p => p.1 == k)).map (fun p => p.2)).getD d)
  | _ => d

/-! ### Concrete registry / callback / config instances -/

/-- A registry with nothing registered. -/
def emptyServer : ServerWrapperM := ⟨"srv", "1.0.0", [], [], []⟩

/-- A registry with exactly one registered tool. -/
def oneToolServer : ServerWrapperM :=
  register_tool emptyServer "add" (JVal.obj []) (fun _ => .ok (.str "sum"))

/-- A different registry with exactly one registered tool. -/
def otherToolServer : ServerWrapperM :=
  register_tool emptyServer "mul" (JVal.obj []) (fun _ => .ok (.str "product"))

/-- Registry with two resource handlers: #1 returns the empty string
(falsy), #2 returns a payload. -/
def twoResServer : ServerWrapperM :=
  register_resource
    (register_resource emptyServer "r1" (.str "res://r1") (.obj [])
      (fun _ => .ok (.str "")))
    "r2" (.str "res://r2") (.obj []) (fun _ => .ok (.str "payload"))

/-- Registry whose two resource handlers both return falsy results. -/
def falsyResServer : ServerWrapperM :=
  register_resource
    (register_resource emptyServer "r1" (.str "res://r1") (.obj [])
      (fun _ => .ok (.str "")))
    "r2" (.str "res://r2") (.obj []) (fun _ => .ok .null)

/-- A callback handler whose poll hook never calls the setter. -/
def pollHandler : CallbackHandlerM :=
  ⟨fun _ => .ok .null, none, some (fun _ _ => ⟨[], .ok (.arr [])⟩)⟩

/-- A callback slot with `pollHandler` registered (resolved). -/
def pollSlot : PromiseState CallbackHandlerM := PromiseState.init.resolve pollHandler

/-- Poll input with state "A". -/
def pollInputA : JVal := .obj [("callbackId", .str "cb1"), ("state", .str "A")]

/-- A handle input with one event. -/
def handleInput1 : JVal :=
  .obj [("callbackId", .str "cb1"),
        ("events", .arr [.obj [("eventId", .str "e1"), ("payload", .str "p")]])]

/-- A fully-resolved process state after the first invocation. -/
def loadedProc : ProcState :=
  ⟨⟨PromiseState.init, PromiseState.init.resolve oneToolServer,
    PromiseState.init.resolve pollHandler, PromiseState.init.resolve (.obj [])⟩,
   true⟩

/-! ### Lemmas about the per-message loop -/

theorem processOne_no_id (env : Env) (m : Msg) (h : m.id? = none) :
    processOne env m = ([], []) := by
  unfold processOne
  rw [h]

theorem processOne_some_id (env : Env) (m : Msg) (v : JVal) (h : m.id? = some v) :
    ∃ r tr, processOne env m = ([r], tr) ∧ r.idOf = some v := by
  unfold processOne
  rw [h]
  rcases hd : dispatch env m.method (m.params.getD (JVal.obj [])) with ⟨res, tr⟩
  cases res with
  | ok o =>
    cases o with
    | success r => exact ⟨Reply.result v r, tr, rfl, rfl⟩
    | rpcError c emsg => exact ⟨Reply.err (some v) c emsg none, tr, rfl, rfl⟩
  | error e =>
    exact ⟨Reply.err (some v) (-32603) e.msg (some (traceback e)), tr, rfl, rfl⟩

theorem runBatch_of_decodeBatch (env : Env) (decode : String → Option Msg) :
    ∀ (raws : List RawMsg) (ms : List Msg), decodeBatch decode raws = some ms →
      runBatch env decode raws =
        (Except.ok (ms.flatMap (fun m => (processOne env m).1)),
         ms.flatMap (fun m => (processOne env m).2)) := by
  intro raws
  induction raws with
  | nil =>
    intro ms h
    simp only [decodeBatch, Option.some.injEq] at h
    subst h
    rfl
  | cons raw rest ih =>
    intro ms h
    simp only [decodeBatch] at h
    rcases hd : decode1 decode raw with _ | m
    · rw [hd] at h; exact absurd h (by simp)
    · rw [hd] at h
      rcases hrest : decodeBatch decode rest with _ | ms'
      · rw [hrest] at h; exact absurd h (by simp)
      · rw [hrest] at h
        simp only [Option.map_some', Option.some.injEq] at h
        subst h
        simp only [runBatch, hd, ih ms' hrest, List.flatMap_cons]

theorem runBatch_of_decode_fail (env : Env) (decode : String → Option Msg) :
    ∀ (raws : List RawMsg), decodeBatch decode raws = none →
      ∃ e ts, runBatch env decode raws = (Except.error e, ts) := by
  intro raws
  induction raws with
  | nil => intro h; exact absurd h (by simp [decodeBatch])
  | cons raw rest ih =>
    intro h
    simp only [decodeBatch] at h
    rcases hd : decode1 decode raw with _ | m
    · exact ⟨.jsonDecodeError "Expecting value", [], by simp [runBatch, hd]⟩
    · rw [hd] at h
      rcases hrest : decodeBatch decode rest with _ | ms'
      · rcases ih hrest with ⟨e, ts, hrun⟩
        refine ⟨e, (processOne env m).2 ++ ts, ?_⟩
        simp only [runBatch, hd, hrun]
      · rw [hrest] at h; exact absurd h (by simp)

theorem flatMap_processOne_spec (env : Env) (ms : List Msg) :
    (ms.flatMap (fun m => (processOne env m).1)).length
        = ms.countP (fun m => m.id?.isSome) ∧
    (ms.flatMap (fun m => (processOne env m).1)).map Reply.idOf
        = (ms.filterMap (fun m => m.id?)).map some := by
  induction ms with
  | nil => exact ⟨rfl, rfl⟩
  | cons m rest ih =>
    rcases h : m.id? with _ | v
    · have h0 := processOne_no_id env m h
      exact ⟨by simp [List.flatMap_cons, h0, List.countP_cons, h, ih.1],
             by simp [List.flatMap_cons, h0, List.filterMap_cons, h, ih.2]⟩
    · rcases processOne_some_id env m v h with ⟨r, tr, hp, hid⟩
      refine ⟨?_, ?_⟩
      · simp [List.flatMap_cons, hp, List.countP_cons, h, ih.1, Nat.add_comm]
      · simp [List.flatMap_cons, hp, List.filterMap_cons, h, ih.2, hid]

/-! ## Claim theorems for the request dispatcher -/

/-- C1: for every batch whose messages all decode, `handle_mcp_request`
returns a reply list with exactly one entry per message that carries an
`id` field (messages without an id contribute zero entries), and the reply
entries carry those ids in the same relative order as the input batch. -/
theorem mcp_request_one_reply_per_id_message
    (env : Env) (decode : String → Option Msg)
    (raws : List RawMsg) (ms : List Msg)
    (hdec : decodeBatch decode raws = some ms) :
    ∃ rs, handle_mcp_request env decode raws = McpResult.ok rs ∧
      rs.length = ms.countP (fun m => m.id?.isSome) ∧
      rs.map Reply.idOf = (ms.filterMap (fun m => m.id?)).map some := by
  refine ⟨ms.flatMap (fun m => (processOne env m).1), ?_, ?_, ?_⟩
  · unfold handle_mcp_request handle_mcp_request_tr
    rw [runBatch_of_decodeBatch env decode raws ms hdec]
  · exact (flatMap_processOne_spec env ms).1
  · exact (flatMap_processOne_spec env ms).2

/-- Witness for C1: the mixed batch (request, notification, textual
request) yields two replies with ids 1 and 2 in order. -/
theorem mcp_request_one_reply_per_id_message_witness :
    ∃ rs, handle_mcp_request envNone decodePing rawsMixed = McpResult.ok rs ∧
      rs.length = msgsMixed.countP (fun m => m.id?.isSome) ∧
      rs.map Reply.idOf = (msgsMixed.filterMap (fun m => m.id?)).map some :=
  mcp_request_one_reply_per_id_message envNone decodePing rawsMixed msgsMixed rfl

/-- C2 counterexample: a batch whose middle message is a string that fails
to decode does NOT yield reply entries for the sibling messages — the
whole invocation returns the top-level failure dict instead (the decode
happens outside the per-message try). -/
theorem mcp_request_bad_string_aborts_batch :
    handle_mcp_request envNone decodeNone rawsBadString
      = McpResult.failure "mcp_error"
          ("Expecting value" ++ "\n" ++ "Traceback: Expecting value") := rfl

/-- C2 amended: a failure raised while processing a decoded message yields
the `-32603` error entry for that message only and leaves every sibling's
entries unchanged; but a string message that fails to JSON-decode aborts
the whole batch with the top-level `mcp_error` failure. -/
theorem mcp_request_per_message_error_containment
    (env : Env) (decode : String → Option Msg)
    (pre post : List Msg) (m : Msg) (v : JVal) (e : PyErr) (raws : List RawMsg)
    (hdec : decodeBatch decode raws = some (pre ++ m :: post))
    (hid : m.id? = some v)
    (herr : (dispatch env m.method (m.params.getD (JVal.obj []))).1 = Except.error e) :
    (∃ rs, handle_mcp_request env decode raws = McpResult.ok rs ∧
      rs = pre.flatMap (fun x => (processOne env x).1)
        ++ Reply.err (some v) (-32603) e.msg (some (traceback e))
          :: post.flatMap (fun x => (processOne env x).1)) ∧
    (∀ braws, decodeBatch decode braws = none →
      ∃ emsg, handle_mcp_request env decode braws = McpResult.failure "mcp_error" emsg) := by
  constructor
  · have hm : (processOne env m).1
        = [Reply.err (some v) (-32603) e.msg (some (traceback e))] := by
      unfold processOne
      rw [hid]
      rcases hd : dispatch env m.method (m.params.getD (JVal.obj [])) with ⟨res, tr⟩
      rw [hd] at herr
      simp only at herr
      subst herr
      rfl
    refine ⟨(pre ++ m :: post).flatMap (fun x => (processOne env x).1), ?_, ?_⟩
    · unfold handle_mcp_request handle_mcp_request_tr
      rw [runBatch_of_decodeBatch env decode raws _ hdec]
    · simp [List.flatMap_append, List.flatMap_cons, hm]
  · intro braws hbad
    rcases runBatch_of_decode_fail env decode braws hbad with ⟨e2, ts, hrun⟩
    refine ⟨e2.msg ++ "\n" ++ traceback e2, ?_⟩
    unfold handle_mcp_request handle_mcp_request_tr
    rw [hrun]

/-- Witness for the amended C2: in a two-message batch whose first message
is a `tools/call` with no registered handler (its processing raises
`ValueError`), the failing message gets its own `-32603` entry and the
sibling `ping` still gets its result; and the all-bad-string batch aborts. -/
theorem mcp_request_per_message_error_containment_witness :
    (∃ rs, handle_mcp_request envNone decodeNone
        [RawMsg.objMsg callMsg1, RawMsg.objMsg pingMsg2] = McpResult.ok rs ∧
      rs = [].flatMap (fun x => (processOne envNone x).1)
        ++ Reply.err (some (JVal.num 1)) (-32603)
             (PyErr.valueError "call_tool handler not registered").msg
             (some (traceback (PyErr.valueError "call_tool handler not registered")))
          :: [pingMsg2].flatMap (fun x => (processOne envNone x).1)) ∧
    (∃ emsg, handle_mcp_request envNone decodeNone [RawMsg.strMsg "zzz"]
        = McpResult.failure "mcp_error" emsg) := by
  have h := mcp_request_per_message_error_containment envNone decodeNone
    [] [pingMsg2] callMsg1 (JVal.num 1)
    (PyErr.valueError "call_tool handler not registered")
    [RawMsg.objMsg callMsg1, RawMsg.objMsg pingMsg2] rfl rfl rfl
  exact ⟨h.1, h.2 [RawMsg.strMsg "zzz"] rfl⟩

/-- C3 counterexample: a `tools/call` message WITHOUT an id is not routed
to the registered `call_tool` handler at all (empty invocation trace and
no reply), while the identical message WITH an id is routed to it — so a
notification is not "routed the same way" as the claim states. -/
theorem mcp_notification_not_routed_counterexample :
    (handle_mcp_request_tr envCall decodeNone [RawMsg.objMsg callMsgNoId]).2 = [] ∧
    (handle_mcp_request_tr envCall decodeNone [RawMsg.objMsg callMsgNoId]).1
      = McpResult.ok [] ∧
    (handle_mcp_request_tr envCall decodeNone [RawMsg.objMsg callMsgId]).2
      = [HTrace.callTool (JVal.str "t") (JVal.obj [])] := ⟨rfl, rfl, rfl⟩

/-- C3 amended: request-vs-notification is determined solely by the
presence of the `id` field; a message without an id produces no reply and
is skipped before any handler dispatch (no routing), while an id-bearing
message produces exactly one reply carrying its id. -/
theorem mcp_notification_skipped_before_dispatch
    (env : Env) (decode : String → Option Msg) (m : Msg) :
    (m.id? = none →
      handle_mcp_request_tr env decode [RawMsg.objMsg m] = (McpResult.ok [], [])) ∧
    (∀ v, m.id? = some v →
      ∃ r tr, handle_mcp_request_tr env decode [RawMsg.objMsg m]
          = (McpResult.ok [r], tr) ∧ r.idOf = some v) := by
  constructor
  · intro h
    simp [handle_mcp_request_tr, runBatch, decode1, processOne_no_id env m h]
  · intro v h
    rcases processOne_some_id env m v h with ⟨r, tr, hp, hid⟩
    refine ⟨r, tr, ?_, hid⟩
    simp [handle_mcp_request_tr, runBatch, decode1, hp]

/-- Witness for the amended C3: the no-id `tools/call` is skipped, the
id-bearing one yields one reply with id 7. -/
theorem mcp_notification_skipped_before_dispatch_witness :
    (handle_mcp_request_tr envCall decodeNone [RawMsg.objMsg callMsgNoId]
        = (McpResult.ok [], [])) ∧
    (∃ r tr, handle_mcp_request_tr envCall decodeNone [RawMsg.objMsg callMsgId]
        = (McpResult.ok [r], tr) ∧ r.idOf = some (JVal.num 7)) :=
  ⟨(mcp_notification_skipped_before_dispatch envCall decodeNone callMsgNoId).1 rfl,
   (mcp_notification_skipped_before_dispatch envCall decodeNone callMsgId).2
     (JVal.num 7) rfl⟩

/-! ## Claim theorems for the Provider Registry -/

/-- C5 counterexample: after registering exactly one tool,
`get_capabilities` does NOT return only the `tools` entry — the descriptor
always also carries the `experimental` key. -/
theorem get_capabilities_one_tool_counterexample :
    capKeys (get_capabilities oneToolServer) = ["experimental", "tools"] ∧
    capKeys (get_capabilities oneToolServer) ≠ ["tools"] :=
  ⟨rfl, by decide⟩

/-- C5 amended: the descriptor always contains `experimental: {}`; with no
registrations it contains none of `tools`/`resources`/`prompts`; with only
tools registered it is exactly `experimental` plus `tools: {listChanged:
false}`; and it is a pure function of whether each of the three tables is
non-empty. -/
theorem get_capabilities_shape (s t : ServerWrapperM) :
    (s.tools = [] → s.resources = [] → s.prompts = [] →
      get_capabilities s = JVal.obj [("experimental", JVal.obj [])]) ∧
    (s.tools ≠ [] → s.resources = [] → s.prompts = [] →
      get_capabilities s = JVal.obj
        [("experimental", JVal.obj []),
         ("tools", JVal.obj [("listChanged", JVal.bool false)])]) ∧
    (s.tools.isEmpty = t.tools.isEmpty → s.resources.isEmpty = t.resources.isEmpty →
      s.prompts.isEmpty = t.prompts.isEmpty →
      get_capabilities s = get_capabilities t) := by
  refine ⟨?_, ?_, ?_⟩
  · intro h1 h2 h3
    simp [get_capabilities, h1, h2, h3]
  · intro h1 h2 h3
    cases hl : s.tools with
    | nil => exact absurd hl h1
    | cons a l => simp [get_capabilities, hl, h2, h3]
  · intro h1 h2 h3
    simp only [get_capabilities, h1, h2, h3]

/-- Witness for the amended C5. -/
theorem get_capabilities_shape_witness :
    (get_capabilities emptyServer = JVal.obj [("experimental", JVal.obj [])]) ∧
    (get_capabilities oneToolServer = JVal.obj
      [("experimental", JVal.obj []),
       ("tools", JVal.obj [("listChanged", JVal.bool false)])]) ∧
    (get_capabilities oneToolServer = get_capabilities otherToolServer) :=
  ⟨(get_capabilities_shape emptyServer emptyServer).1 rfl rfl rfl,
   (get_capabilities_shape oneToolServer emptyServer).2.1
     (by simp [oneToolServer, register_tool, emptyServer, pyDictInsert]) rfl rfl,
   (get_capabilities_shape oneToolServer otherToolServer).2.2 rfl rfl rfl⟩

theorem readResourceLoop_spec (uri : JVal) :
    ∀ (rs : List (String × ResourceEntry)) (results : List JVal),
      rs.map (fun e => e.2.handler uri) = results.map Except.ok →
      readResourceLoop uri rs
        = ((results.find? JVal.truthy).elim
            (Except.error (.valueError ("Unknown resource: " ++ pyStr uri)))
            Except.ok) := by
  intro rs
  induction rs with
  | nil =>
    intro results h
    cases results with
    | nil => rfl
    | cons r rest => exact absurd h (by simp)
  | cons e rest ih =>
    intro results h
    cases results with
    | nil => exact absurd h (by simp)
    | cons r rrest =>
      simp only [List.map_cons, List.cons.injEq] at h
      obtain ⟨hhead, htail⟩ := h
      have ihh := ih rrest htail
      by_cases ht : JVal.truthy r
      · simp [readResourceLoop, hhead, ht, List.find?_cons_of_pos]
      · simp [readResourceLoop, hhead, ht, List.find?_cons_of_neg, ihh]

/-- C6: `_read_resource` invokes the registered resource handlers in
registration order and returns the first non-falsy result (handler #2's
value when #1 returns a falsy one); if every handler result is falsy it
fails with the unknown-resource error naming the URI. -/
theorem read_resource_first_truthy (s : ServerWrapperM) (uri : JVal)
    (results : List JVal)
    (h : s.resources.map (fun e => e.2.handler uri) = results.map Except.ok) :
    read_resource s uri
      = ((results.find? JVal.truthy).elim
          (Except.error (.valueError ("Unknown resource: " ++ pyStr uri)))
          Except.ok) :=
  readResourceLoop_spec uri s.resources results h

/-- Witness for C6: handler #1 returns "" and #2 returns "payload" — the
read returns "payload"; with both falsy it fails naming the URI. -/
theorem read_resource_first_truthy_witness :
    read_resource twoResServer (.str "res://x") = Except.ok (.str "payload") ∧
    read_resource falsyResServer (.str "res://x")
      = Except.error (.valueError "Unknown resource: res://x") :=
  ⟨read_resource_first_truthy twoResServer (.str "res://x")
     [.str "", .str "payload"] rfl,
   read_resource_first_truthy falsyResServer (.str "res://x")
     [.str "", .null] rfl⟩

/-! ## Claim theorems for the promise, OAuth and callback adapters -/

/-- C4 (code bug): for EVERY OAuth slot state — hook registered or not —
the oauth `get` action returns the top-level `oauth_error` failure caused
by the TypeError from awaiting the non-awaitable ProgrammablePromise
object, and `handle_oauth_get` never returns the defined not-configured
response `{enabled: false, hasForm: false}`. -/
theorem oauth_get_always_type_error (slot : PromiseState OAuthHandlerM) :
    handle_oauth_action_get slot
      = ActionResult.failure "oauth_error"
          ("An asyncio.Future, a coroutine or an awaitable is required" ++ "\n" ++
           "Traceback: An asyncio.Future, a coroutine or an awaitable is required") ∧
    handle_oauth_get slot
      ≠ Except.ok (JVal.obj [("enabled", JVal.bool false), ("hasForm", JVal.bool false)]) := by
  constructor
  · rfl
  · intro h
    simp [handle_oauth_get, get_oauth, asyncioWaitFor] at h

/-- C7 (code bug): with a callback handler carrying a poll hook registered
in the slot and input state "A", the callbacks poll action fails with the
AttributeError from looking up `poll_hook` on the ProgrammablePromise
container, instead of returning the threaded state. -/
theorem callbacks_poll_attribute_error :
    handle_callbacks_action_poll pollSlot pollInputA
      = ActionResult.failure "callback_error"
          ("ProgrammablePromise object has no attribute poll_hook" ++ "\n" ++
           "Traceback: ProgrammablePromise object has no attribute poll_hook") := rfl

/-- C8 counterexample: `resolve` has no already-resolved guard, so a second
`resolve("v2")` on the same promise object overwrites "v1" — the promise
does not still hold "v1". -/
theorem promise_double_resolve_counterexample :
    ((PromiseState.init.resolve "v1").resolve "v2").value = some "v2" ∧
    ((PromiseState.init.resolve "v1").resolve "v2").value ≠ some "v1" :=
  ⟨rfl, by decide⟩

/-- C8 amended: `resolve` unconditionally stores its value (last write
wins) and marks the promise resolved; `reset_all` is what installs fresh
unresolved promises for a new context epoch. -/
theorem promise_resolve_overwrites (α : Type) (p : PromiseState α) (v₁ v₂ : α)
    (c : ConfigState) :
    ((p.resolve v₁).resolve v₂).value = some v₂ ∧
    ((p.resolve v₁).resolve v₂).resolved = true ∧
    (reset_all c).current_oauth = PromiseState.init ∧
    (reset_all c).current_server = PromiseState.init ∧
    (reset_all c).current_hook = PromiseState.init ∧
    (reset_all c).current_args = PromiseState.init :=
  ⟨rfl, rfl, rfl, rfl, rfl, rfl⟩

/-- C9 counterexample: the callbacks `handle` operation does NOT fail with
an attribute error — the per-event try catches the AttributeError, and the
operation returns a successful result whose per-event record carries the
attribute-error text. -/
theorem callbacks_handle_not_failing_counterexample :
    handle_callbacks_handle pollSlot handleInput1
      = Except.ok (.obj [("results", .arr
          [.obj [("success", .bool false), ("eventId", .str "e1"),
                 ("error", .str "ProgrammablePromise object has no attribute handle_hook")]])]) := rfl

/-- C9 amended: `get_callbacks` returns the always-truthy promise container
itself (never the registered handler), so regardless of the slot state the
`get`, `install` and `poll` operations fail with AttributeError on the hook
attribute (in particular `get` never takes its `{enabled: false}` branch),
while `handle` catches the AttributeError per event and returns a successful
response whose records are per-event failures carrying the attribute-error
text. -/
theorem callbacks_container_attribute_errors
    (slot : PromiseState CallbackHandlerM) (input : JVal) (cbid : JVal)
    (evs : List JVal)
    (hevs : ∀ ev ∈ evs, ∃ fs, ev = JVal.obj fs) :
    get_callbacks slot = slot ∧
    promiseTruthy (get_callbacks slot) = true ∧
    handle_callbacks_get slot
      = .error (.attributeError "ProgrammablePromise object has no attribute install_hook") ∧
    handle_callbacks_install slot input
      = .error (.attributeError "ProgrammablePromise object has no attribute install_hook") ∧
    handle_callbacks_poll slot input
      = .error (.attributeError "ProgrammablePromise object has no attribute poll_hook") ∧
    handle_callbacks_handle slot (.obj [("callbackId", cbid), ("events", .arr evs)])
      = .ok (.obj [("results", .arr (evs.map (fun ev =>
          .obj [("success", .bool false),
                ("eventId", objGetD ev "eventId" .null),
                ("error", .str "ProgrammablePromise object has no attribute handle_hook")])))]) := by
  refine ⟨rfl, rfl, rfl, rfl, rfl, ?_⟩
  have hloop : ∀ (l : List JVal), (∀ ev ∈ l, ∃ fs, ev = JVal.obj fs) →
      handleEventsLoop cbid l = .ok (l.map (fun ev =>
        JVal.obj [("success", .bool false),
                  ("eventId", objGetD ev "eventId" .null),
                  ("error", .str "ProgrammablePromise object has no attribute handle_hook")])) := by
    intro l
    induction l with
    | nil => intro _; rfl
    | cons ev rest ih =>
      intro hl
      rcases hl ev (by simp) with ⟨fs, rfl⟩
      have ihh := ih (fun x hx => hl x (by simp [hx]))
      simp [handleEventsLoop, perEventRecord, promiseHookAttr, pyGet, objGetD,
            ihh, Except.map, PyErr.msg]
  simp [handle_callbacks_handle, get_callbacks, PromiseState.promiseSelf,
        promiseTruthy, pyGet, hloop evs hevs, Except.map]

/-- Witness for the amended C9, at the registered-handler slot and a
one-event input. -/
theorem callbacks_container_attribute_errors_witness :
    get_callbacks pollSlot = pollSlot ∧
    promiseTruthy (get_callbacks pollSlot) = true ∧
    handle_callbacks_get pollSlot
      = .error (.attributeError "ProgrammablePromise object has no attribute install_hook") ∧
    handle_callbacks_install pollSlot pollInputA
      = .error (.attributeError "ProgrammablePromise object has no attribute install_hook") ∧
    handle_callbacks_poll pollSlot pollInputA
      = .error (.attributeError "ProgrammablePromise object has no attribute poll_hook") ∧
    handle_callbacks_handle pollSlot
        (.obj [("callbackId", .str "cb1"),
               ("events", .arr [.obj [("eventId", .str "e1"), ("payload", .str "p")]])])
      = .ok (.obj [("results", .arr
          ([JVal.obj [("eventId", .str "e1"), ("payload", .str "p")]].map (fun ev =>
            .obj [("success", .bool false),
                  ("eventId", objGetD ev "eventId" .null),
                  ("error", .str "ProgrammablePromise object has no attribute handle_hook")])))]) :=
  callbacks_container_attribute_errors pollSlot pollInputA (.str "cb1")
    [.obj [("eventId", .str "e1"), ("payload", .str "p")]]
    (by rintro ev hm
        rcases List.mem_singleton.mp hm with rfl
        exact ⟨_, rfl⟩)

/-! ## Claim theorems for the invocation context -/

/-- C10: once the user module is loaded, every dispatch path's
configuration effect goes only through `load_user_server`: the OAuth,
server and callback-hook slots are left exactly as they were (no path
calls `reset_all`, which has no caller), and only the args slot is
re-resolved with the path's args on each provider load. -/
theorem dispatch_paths_preserve_slots
    (userModule : ConfigState → ConfigState) (p : DispatchPath) (s : ProcState)
    (hloaded : s.userModuleLoaded = true) :
    (dispatchConfigEffect userModule p s).cfg.current_oauth = s.cfg.current_oauth ∧
    (dispatchConfigEffect userModule p s).cfg.current_server = s.cfg.current_server ∧
    (dispatchConfigEffect userModule p s).cfg.current_hook = s.cfg.current_hook ∧
    (dispatchConfigEffect userModule p s).cfg.current_args
      = s.cfg.current_args.resolve (pathArgs p) ∧
    (dispatchConfigEffect userModule p s).userModuleLoaded = true := by
  cases p <;>
    simp [dispatchConfigEffect, load_user_server, set_args, pathArgs, hloaded]

/-- Witness for C10 at a fully-resolved loaded process state. -/
theorem dispatch_paths_preserve_slots_witness :
    (dispatchConfigEffect id (DispatchPath.discover (.obj [("k", .str "v")])) loadedProc).cfg.current_oauth
      = loadedProc.cfg.current_oauth ∧
    (dispatchConfigEffect id (DispatchPath.discover (.obj [("k", .str "v")])) loadedProc).cfg.current_server
      = loadedProc.cfg.current_server ∧
    (dispatchConfigEffect id (DispatchPath.discover (.obj [("k", .str "v")])) loadedProc).cfg.current_hook
      = loadedProc.cfg.current_hook ∧
    (dispatchConfigEffect id (DispatchPath.discover (.obj [("k", .str "v")])) loadedProc).cfg.current_args
      = loadedProc.cfg.current_args.resolve (pathArgs (DispatchPath.discover (.obj [("k", .str "v")]))) ∧
    (dispatchConfigEffect id (DispatchPath.discover (.obj [("k", .str "v")])) loadedProc).userModuleLoaded
      = true :=
  dispatch_paths_preserve_slots id (DispatchPath.discover (.obj [("k", .str "v")]))
    loadedProc rfl

end MetorialBoot
